import Mathlib

/-!
Verification development for the crypto signal monitor repository.

The definitions below are a shallow embedding of the TypeScript source:

* `SignalAggregator.mergeSignals` / `filterSignals` / `cleanupProcessedTokens`
  (src/services/signalAggregator.ts),
* the rule-based advisory engine `AIAnalyzer` (src/services/aiAnalyzer.ts),
* the delegated-backend response normalizers of `MiniMaxService` and
  `DeepSeekService` and the `AIRouter` (src/services/ai/*.ts),
* the adapter score/urgency computations of `BirdeyeService.convertToSignal`
  and `DexScreenerService.convertToSignal`,
* `MultiPlatformMonitor.shouldNotify` (src/services/multiPlatformMonitor.ts).

Numbers are embedded as `ℚ` (JS numbers used here stay within exactly
representable ranges and all comparisons/divisions in the source are exact at
these magnitudes); timestamps are `ℚ` milliseconds.  Network payloads
(`rawData`), logging, and ISO-string clock formatting are elided: `rawData` is
dropped from `SignalSource` and `analyzedAt` is threaded as an opaque string
parameter, since none of them influence any computation.
-/

/-- `urgency` enum of `AggregatedSignal`. -/
inductive Urgency
  | low
  | medium
  | high
  | critical
deriving DecidableEq

/-- `riskLevel` / `overallRisk` enum. -/
inductive RiskLevel
  | low
  | medium
  | high
  | extreme
deriving DecidableEq

/-- `recommendation` enum of `AIAnalysisResult`. -/
inductive Recommendation
  | strong_buy
  | buy
  | watch
  | avoid
deriving DecidableEq

/-- `positionSize` enum of the entry strategy. -/
inductive PositionSize
  | small
  | medium
  | large
deriving DecidableEq

/-- `timeHorizon` enum of the entry strategy. -/
inductive TimeHorizon
  | scalp
  | short
  | medium
  | long
deriving DecidableEq

/-- `type` field of `AggregatedSignal`. -/
inductive SignalType
  | new_listing
  | volume_spike
  | price_spike
  | whale_buy
  | trending
  | smart_money
deriving DecidableEq

/-- Token snapshot carried inside a signal (`AggregatedSignal.token`). -/
structure TokenSnapshot where
  address : String
  symbol : String
  name : String
  priceUsd : ℚ
  marketCap : ℚ
  liquidityUsd : ℚ
  volume24h : ℚ
  priceChange24h : ℚ
  holderCount : ℚ
  createdAt : String
deriving DecidableEq

/-- One per-provider contribution (`SignalSource`); `rawData` elided. -/
structure SignalSource where
  platform : String
  timestamp : String
  confidence : ℚ
deriving DecidableEq

/-- `AggregatedSignal.metrics`. -/
structure SignalMetrics where
  platformCount : Nat
  confirmingPlatforms : List String
  volumeScore : ℚ
  priceScore : ℚ
  socialScore : ℚ
  whaleScore : ℚ
deriving DecidableEq

/-- The aggregated signal record (`AggregatedSignal`). -/
structure AggregatedSignal where
  id : String
  tokenAddress : String
  chain : String
  timestamp : String
  token : TokenSnapshot
  type : SignalType
  score : ℚ
  urgency : Urgency
  sources : List SignalSource
  metrics : SignalMetrics
  riskLevel : RiskLevel
  riskFactors : List String
  isNewToken : Bool
  ageHours : ℚ
deriving DecidableEq

/-- The `urgencyPriority` lookup table used in `mergeSignals`. -/
def urgencyPriority : Urgency → Nat
  | .critical => 4
  | .high => 3
  | .medium => 2
  | .low => 1

/-- The `riskPriority` lookup table used in `mergeSignals`. -/
def riskPriority : RiskLevel → Nat
  | .extreme => 4
  | .high => 3
  | .medium => 2
  | .low => 1

/-- The dedup token key `` `${signal.chain}-${signal.tokenAddress}` ``. -/
def signalKey (s : AggregatedSignal) : String :=
  s.chain ++ "-" ++ s.tokenAddress

/-- Helper of `dedupFirst`: drop elements already seen, in order. -/
def dedupFirstAux {α : Type} [DecidableEq α] (seen : List α) : List α → List α
  | [] => []
  | x :: xs =>
    if x ∈ seen then dedupFirstAux seen xs
    else x :: dedupFirstAux (x :: seen) xs

/-- `[...new Set(l)]`: removes duplicates keeping the first occurrence,
in first-occurrence order (JS `Set` iteration order). -/
def dedupFirst {α : Type} [DecidableEq α] (l : List α) : List α :=
  dedupFirstAux [] l

/-- JS `Math.min` on two numbers (kept as an explicit `if` so that closed
instances evaluate by kernel reduction). -/
def qmin (a b : ℚ) : ℚ := if a ≤ b then a else b

/-- JS `Math.max` on two numbers. -/
def qmax (a b : ℚ) : ℚ := if b ≤ a then a else b

/-- JS `Math.abs`. -/
def qabs (a : ℚ) : ℚ := if a < 0 then -a else a

/-- `Math.max(...)` over a nonempty list given as head and tail. -/
def maxQ (x : ℚ) (xs : List ℚ) : ℚ :=
  xs.foldl qmax x

/-- `key.replace(/[^a-zA-Z0-9]/g, '')` in the merged signal id. -/
def sanitizeKey (k : String) : String :=
  String.mk (k.toList.filter fun c => c.isAlphanum)

/-- The grouping state of `mergeSignals`: a JS `Map` from token key to the
(nonempty) group of signals, kept as (key, first member, later members) in
key-insertion order. -/
abbrev SignalGroups := List (String × AggregatedSignal × List AggregatedSignal)

/-- One `tokenMap` update of `mergeSignals`: append the signal to its key's
group, or append a fresh singleton group at the end (JS `Map` insertion
order). -/
def addToGroups (s : AggregatedSignal) : SignalGroups → SignalGroups
  | [] => [(signalKey s, s, [])]
  | (k, b, r) :: gs =>
    if k = signalKey s then (k, b, r ++ [s]) :: gs
    else (k, b, r) :: addToGroups s gs

/-- The grouping loop of `mergeSignals` (group signals by token key). -/
def groupByKey (signals : List AggregatedSignal) : SignalGroups :=
  signals.foldl (fun gs s => addToGroups s gs) []

/-- The merge of one multi-signal group in `SignalAggregator.mergeSignals`
(the `group.length ≥ 2` branch); `group = base :: rest`, `now` is the
`Date.now()` value used in the minted id. -/
def mergeGroup (now : Nat) (key : String) (base : AggregatedSignal)
    (rest : List AggregatedSignal) : AggregatedSignal :=
  let group := base :: rest
  let allSources := group.flatMap (fun s => s.sources)
  let totalScore := (group.map (fun s => s.score)).sum
  let maxUrgency := group.foldl
    (fun m s => if urgencyPriority m < urgencyPriority s.urgency then s.urgency else m)
    Urgency.low
  let confirming := group.flatMap (fun s => s.metrics.confirmingPlatforms)
  let platformBonus := qmin (((confirming.length : ℚ) - 1) * 10) 20
  let avgScore := totalScore / (group.length : ℚ)
  let finalScore := qmin (avgScore + platformBonus) 100
  let allRiskFactors := dedupFirst (group.flatMap (fun s => s.riskFactors))
  let highestRisk := group.foldl
    (fun m s => if riskPriority m < riskPriority s.riskLevel then s.riskLevel else m)
    RiskLevel.low
  { base with
    id := "merged_" ++ toString now ++ "_" ++ sanitizeKey key
    score := finalScore
    urgency := maxUrgency
    sources := allSources
    metrics := {
      platformCount := confirming.length
      confirmingPlatforms := dedupFirst confirming
      volumeScore := maxQ base.metrics.volumeScore (rest.map (fun s => s.metrics.volumeScore))
      priceScore := maxQ base.metrics.priceScore (rest.map (fun s => s.metrics.priceScore))
      socialScore := maxQ base.metrics.socialScore (rest.map (fun s => s.metrics.socialScore))
      whaleScore := maxQ base.metrics.whaleScore (rest.map (fun s => s.metrics.whaleScore)) }
    riskLevel := highestRisk
    riskFactors := allRiskFactors }

/-- Emit one group: singleton groups pass through unchanged, larger groups
are merged. -/
def mergeOne (now : Nat) : String × AggregatedSignal × List AggregatedSignal → AggregatedSignal
  | (_, b, []) => b
  | (k, b, r) => mergeGroup now k b r

/-- `SignalAggregator.mergeSignals`. -/
def mergeSignals (now : Nat) (signals : List AggregatedSignal) : List AggregatedSignal :=
  (groupByKey signals).map (mergeOne now)

/-- The `processedTokens` suppression map: token key ↦ last-emitted
`Date.now()` timestamp (ms). -/
abbrev SuppMap := List (String × ℚ)

/-- JS `Map.get`. -/
def mapLookup : SuppMap → String → Option ℚ
  | [], _ => none
  | kv :: m, k => if kv.1 = k then some kv.2 else mapLookup m k

/-- JS `Map.set`: update the (unique) entry in place if present, else append
(JS `Map` insertion order). -/
def mapInsert : SuppMap → String → ℚ → SuppMap
  | [], k, v => [(k, v)]
  | kv :: m, k, v => if kv.1 = k then (k, v) :: m else kv :: mapInsert m k v

/-- Aggregation options used by `filterSignals`
(`minConfidenceScore`, `duplicateTokenThreshold` in minutes). -/
structure AggregationConfig where
  minConfidenceScore : ℚ
  duplicateTokenThreshold : ℚ
deriving DecidableEq

/-- Default `AggregationConfig` of the source constructor. -/
def defaultAggregationConfig : AggregationConfig :=
  { minConfidenceScore := 60, duplicateTokenThreshold := 60 }

/-- The duplicate check of `filterSignals` step 2: truthy `lastProcessed`
(a stored timestamp of `0` is falsy in JS and skips the check) whose age in
minutes is below the configured threshold. -/
def isSuppressed (m : SuppMap) (key : String) (now threshold : ℚ) : Bool :=
  match mapLookup m key with
  | some t => decide (t ≠ 0) && decide ((now - t) / (1000 * 60) < threshold)
  | none => false

/-- One iteration of the `filterSignals` loop: the four drop conditions in
source order, passing signals appended and recorded at `now`. -/
def filterStep (cfg : AggregationConfig) (now : ℚ)
    (st : List AggregatedSignal × SuppMap) (signal : AggregatedSignal) :
    List AggregatedSignal × SuppMap :=
  if signal.score < cfg.minConfidenceScore then st
  else if isSuppressed st.2 (signalKey signal) now cfg.duplicateTokenThreshold then st
  else if signal.riskLevel = RiskLevel.extreme ∧ signal.score < 80 then st
  else if signal.token.liquidityUsd < 5000 ∧ signal.token.volume24h < 1000 then st
  else (st.1 ++ [signal], mapInsert st.2 (signalKey signal) now)

/-- `SignalAggregator.cleanupProcessedTokens`: delete entries older than 24
hours. -/
def cleanupProcessedTokens (now : ℚ) (m : SuppMap) : SuppMap :=
  m.filter (fun kv => !(decide (kv.2 < now - 24 * 60 * 60 * 1000)))

/-- `SignalAggregator.filterSignals`, returning the surviving signals and the
updated suppression map (the source mutates `this.processedTokens`). -/
def filterSignals (cfg : AggregationConfig) (now : ℚ) (m₀ : SuppMap)
    (signals : List AggregatedSignal) : List AggregatedSignal × SuppMap :=
  let st := signals.foldl (filterStep cfg now) ([], m₀)
  (st.1, cleanupProcessedTokens now st.2)

/-- The `riskAnalysis` block of `AIAnalysisResult`. -/
structure RiskAnalysis where
  rugRisk : ℚ
  volatilityRisk : ℚ
  liquidityRisk : ℚ
  overallRisk : RiskLevel
  warnings : List String
deriving DecidableEq

/-- The `entryStrategy` block of `AIAnalysisResult`. -/
structure EntryStrategy where
  suggestedEntryPrice : ℚ
  suggestedStopLoss : ℚ
  suggestedTakeProfit : ℚ
  positionSize : PositionSize
  maxPositionUsd : ℚ
  timeHorizon : TimeHorizon
deriving DecidableEq

/-- The advisory output record (`AIAnalysisResult`). -/
structure AIAnalysisResult where
  signalId : String
  recommendation : Recommendation
  confidence : ℚ
  reasoning : List String
  entryStrategy : EntryStrategy
  riskAnalysis : RiskAnalysis
  keyObservations : List String
  analyzedAt : String
  aiModel : String
deriving DecidableEq

/-- Result of `AIAnalyzer.analyzeMarketMetrics`. -/
structure MarketAnalysis where
  volumeHealth : ℚ
  priceMomentum : ℚ
  liquidityAdequacy : Bool
  holderDistribution : Bool
  multiPlatformConfirmed : Bool
deriving DecidableEq

/-- `AIAnalyzer.calculateVolumeHealth`. -/
def calculateVolumeHealth (volume24h liquidity : ℚ) : ℚ :=
  if liquidity = 0 then 0
  else
    let r := volume24h / liquidity
    if 2 < r then 100
    else if 1 < r then 80
    else if 1 / 2 < r then 60
    else if 1 / 10 < r then 40
    else 20

/-- `AIAnalyzer.analyzeMarketMetrics`. -/
def analyzeMarketMetrics (signal : AggregatedSignal) : MarketAnalysis :=
  { volumeHealth := calculateVolumeHealth signal.token.volume24h signal.token.liquidityUsd
    priceMomentum := signal.token.priceChange24h
    liquidityAdequacy := decide (signal.token.marketCap * (1 / 10) < signal.token.liquidityUsd)
    holderDistribution := decide (500 < signal.token.holderCount)
    multiPlatformConfirmed := decide (2 ≤ signal.metrics.platformCount) }

/-- `AIAnalyzer.analyzeRisk`: the advisory-level risk recomputation. -/
def analyzeRisk (signal : AggregatedSignal) : RiskAnalysis :=
  let token := signal.token
  let ageHours := signal.ageHours
  let rugRisk : ℚ :=
    (if ageHours < 1 then 40 else if ageHours < 6 then 25 else if ageHours < 24 then 15 else 0)
    + (if token.liquidityUsd < 10000 then 30 else if token.liquidityUsd < 50000 then 15 else 0)
    + (if token.marketCap < 100000 then 20 else 0)
    + (if token.holderCount < 100 then 20 else if token.holderCount < 500 then 10 else 0)
  let volatilityRisk : ℚ :=
    30 + (if 100 < qabs token.priceChange24h then 30
          else if 50 < qabs token.priceChange24h then 15 else 0)
  let liquidityRisk : ℚ :=
    20 + (if token.liquidityUsd < token.volume24h * (1 / 2) then 30 else 0)
  let overallRiskScore := (rugRisk + volatilityRisk + liquidityRisk) / 3
  let overallRisk : RiskLevel :=
    if 60 ≤ overallRiskScore then .extreme
    else if 40 ≤ overallRiskScore then .high
    else if 25 ≤ overallRiskScore then .medium
    else .low
  { rugRisk := qmin rugRisk 100
    volatilityRisk := qmin volatilityRisk 100
    liquidityRisk := qmin liquidityRisk 100
    overallRisk := overallRisk
    warnings := signal.riskFactors }

/-- `AIAnalyzer.calculateEntryStrategy`. -/
def calculateEntryStrategy (signal : AggregatedSignal)
    (riskAnalysis : RiskAnalysis) : EntryStrategy :=
  let token := signal.token
  let currentPrice := token.priceUsd
  let sized : PositionSize × ℚ :=
    if riskAnalysis.overallRisk = RiskLevel.low ∧ 80 ≤ signal.score then (.large, 1000)
    else if riskAnalysis.overallRisk = RiskLevel.medium ∧ 70 ≤ signal.score then (.medium, 500)
    else (.small, 200)
  let sized : PositionSize × ℚ :=
    if signal.isNewToken then (.small, qmin sized.2 300) else sized
  let volatility := qabs token.priceChange24h
  let stopLossPercent := qmin (qmax (volatility * (1 / 2)) 10) 30
  let suggestedStopLoss := currentPrice * (1 - stopLossPercent / 100)
  let takeProfitPercent := stopLossPercent * 2
  let suggestedTakeProfit := currentPrice * (1 + takeProfitPercent / 100)
  let suggestedEntryPrice := currentPrice * (102 / 100)
  let timeHorizon : TimeHorizon :=
    if signal.isNewToken then .scalp
    else if 85 ≤ signal.score then .medium
    else .short
  { suggestedEntryPrice := suggestedEntryPrice
    suggestedStopLoss := suggestedStopLoss
    suggestedTakeProfit := suggestedTakeProfit
    positionSize := sized.1
    maxPositionUsd := sized.2
    timeHorizon := timeHorizon }

/-- `AIAnalyzer.generateReasoning`.  The templated strings are kept with their
trigger conditions; interpolated numerals are elided from the text (they carry
no information beyond the already-embedded numeric fields). -/
def generateReasoning (signal : AggregatedSignal)
    (riskAnalysis : RiskAnalysis) : List String :=
  let token := signal.token
  (if 2 ≤ signal.metrics.platformCount then ["多平台验证"] else [])
  ++ (if 100000 < token.volume24h then ["高交易量"] else [])
  ++ (if 50 < token.priceChange24h then ["强劲涨幅"] else [])
  ++ (if signal.isNewToken then ["新币机会"] else [])
  ++ (if 100000 < token.liquidityUsd then ["充足流动性"] else [])
  ++ (if 1000 < token.holderCount then ["持有者分散"] else [])
  ++ (if 50 < riskAnalysis.rugRisk then ["Rug风险较高，建议小仓位"] else [])
  ++ (if token.liquidityUsd < 50000 then ["流动性较低，注意滑点"] else [])
  ++ (if 200 < token.priceChange24h then ["涨幅过大，可能回调"] else [])

/-- `AIAnalyzer.generateObservations` (numeric interpolation elided as in
`generateReasoning`). -/
def generateObservations (signal : AggregatedSignal) : List String :=
  let token := signal.token
  (if token.marketCap < 1000000 then ["微市值代币，有爆发潜力但风险极高"]
   else if token.marketCap < 10000000 then ["小市值代币，仍有较大上涨空间"] else [])
  ++ (if token.marketCap ≠ 0 ∧ 1 < token.volume24h / token.marketCap then
        ["交易量超过市值，热度极高，注意波动"]
      else if token.marketCap ≠ 0 ∧ 1 / 2 < token.volume24h / token.marketCap then
        ["交易活跃，市场关注度高"] else [])
  ++ (if signal.isNewToken then
        ["新币尚未经过充分验证，建议快进快出"]
        ++ (if token.holderCount < 200 then ["早期筹码高度集中，关注大户动向"] else [])
      else [])
  ++ ["数据来源"]

/-- `AIAnalyzer.determineRecommendation`: first-match-wins decision table over
the signal score and the advisory-level overall risk. -/
def determineRecommendation (signal : AggregatedSignal)
    (riskAnalysis : RiskAnalysis) : Recommendation :=
  if riskAnalysis.overallRisk = RiskLevel.extreme then .avoid
  else if 85 ≤ signal.score ∧ riskAnalysis.overallRisk = RiskLevel.low then .strong_buy
  else if 75 ≤ signal.score ∧ riskAnalysis.overallRisk ≠ RiskLevel.high then .buy
  else if 60 ≤ signal.score then .watch
  else .avoid

/-- `AIAnalyzer.calculateConfidence`. -/
def calculateConfidence (signal : AggregatedSignal)
    (marketAnalysis : MarketAnalysis) (riskAnalysis : RiskAnalysis) : ℚ :=
  let confidence := signal.score
  let confidence := if marketAnalysis.multiPlatformConfirmed then confidence + 5 else confidence
  let confidence := if riskAnalysis.overallRisk = RiskLevel.low then confidence + 5 else confidence
  let confidence :=
    if riskAnalysis.overallRisk = RiskLevel.high then confidence - 15
    else if riskAnalysis.overallRisk = RiskLevel.extreme then confidence - 30
    else confidence
  qmax 0 (qmin 100 confidence)

/-- `AIAnalyzer.analyze` (the rule-based advisory engine); `nowIso` stands for
the `analyzedAt` clock string. -/
def ruleBasedAnalyze (nowIso : String) (signal : AggregatedSignal) : AIAnalysisResult :=
  let marketAnalysis := analyzeMarketMetrics signal
  let riskAnalysis := analyzeRisk signal
  let entryStrategy := calculateEntryStrategy signal riskAnalysis
  let reasoning := generateReasoning signal riskAnalysis
  let recommendation := determineRecommendation signal riskAnalysis
  let confidence := calculateConfidence signal marketAnalysis riskAnalysis
  { signalId := signal.id
    recommendation := recommendation
    confidence := confidence
    reasoning := reasoning
    entryStrategy := entryStrategy
    riskAnalysis := riskAnalysis
    keyObservations := generateObservations signal
    analyzedAt := nowIso
    aiModel := "RuleBased-v1.0" }

/-- `parsed.entryStrategy` as produced by a delegated backend: every field may
be missing (or of the wrong dynamic shape, which the source treats the same
way). -/
structure ParsedEntryStrategy where
  suggestedEntryPrice : Option ℚ
  suggestedStopLoss : Option ℚ
  suggestedTakeProfit : Option ℚ
  positionSize : Option String
  maxPositionUsd : Option ℚ
  timeHorizon : Option String
deriving DecidableEq

/-- `parsed.riskAnalysis` of a delegated backend response. -/
structure ParsedRiskAnalysis where
  rugRisk : Option ℚ
  volatilityRisk : Option ℚ
  liquidityRisk : Option ℚ
  overallRisk : Option String
  warnings : Option (List String)
deriving DecidableEq

/-- The parsed JSON response of a delegated backend (`JSON.parse` output);
`none` models a missing / non-string / non-array field. -/
structure ParsedResult where
  recommendation : Option String
  confidence : Option ℚ
  reasoning : Option (List String)
  entryStrategy : Option ParsedEntryStrategy
  riskAnalysis : Option ParsedRiskAnalysis
  keyObservations : Option (List String)
deriving DecidableEq

/-- JS `x || d` for numeric `x`: a missing value and the falsy number `0` both
yield the default. -/
def orDefault (v : Option ℚ) (d : ℚ) : ℚ :=
  match v with
  | none => d
  | some x => if x = 0 then d else x

/-- Map a recognized recommendation string to its enum value. -/
def recOfString (s : String) : Recommendation :=
  if s = "strong_buy" then .strong_buy
  else if s = "buy" then .buy
  else if s = "watch" then .watch
  else .avoid

/-- Map a recognized position-size string to its enum value. -/
def posOfString (s : String) : PositionSize :=
  if s = "small" then .small
  else if s = "medium" then .medium
  else .large

/-- Map a recognized overall-risk string to its enum value. -/
def riskOfString (s : String) : RiskLevel :=
  if s = "low" then .low
  else if s = "medium" then .medium
  else if s = "high" then .high
  else .extreme

/-- Map a recognized time-horizon string to its enum value. -/
def horizonOfString (s : String) : TimeHorizon :=
  if s = "scalp" then .scalp
  else if s = "short" then .short
  else if s = "medium" then .medium
  else .long

/-- The `normalizeResult` body shared verbatim by `MiniMaxService` and
`DeepSeekService` (they differ only in the `aiModel` tag). -/
def normalizeResultCore (aiModel : String) (nowIso : String)
    (parsed : ParsedResult) (signal : AggregatedSignal) : AIAnalysisResult :=
  let es := parsed.entryStrategy
  let ra := parsed.riskAnalysis
  { signalId := signal.id
    recommendation :=
      match parsed.recommendation with
      | some r =>
        if r ∈ ["strong_buy", "buy", "watch", "avoid"] then recOfString r else .watch
      | none => .watch
    confidence := qmax 0 (qmin 100 (orDefault parsed.confidence 50))
    reasoning :=
      match parsed.reasoning with
      | some l => l
      | none => ["AI分析完成"]
    entryStrategy := {
      suggestedEntryPrice :=
        orDefault (es.bind (fun e => e.suggestedEntryPrice)) signal.token.priceUsd
      suggestedStopLoss :=
        orDefault (es.bind (fun e => e.suggestedStopLoss)) (signal.token.priceUsd * (8 / 10))
      suggestedTakeProfit :=
        orDefault (es.bind (fun e => e.suggestedTakeProfit)) (signal.token.priceUsd * (15 / 10))
      positionSize :=
        match es.bind (fun e => e.positionSize) with
        | some p => if p ∈ ["small", "medium", "large"] then posOfString p else .small
        | none => .small
      maxPositionUsd := orDefault (es.bind (fun e => e.maxPositionUsd)) 200
      timeHorizon :=
        match es.bind (fun e => e.timeHorizon) with
        | some t => if t ∈ ["scalp", "short", "medium", "long"] then horizonOfString t else .short
        | none => .short }
    riskAnalysis := {
      rugRisk := qmax 0 (qmin 100 (orDefault (ra.bind (fun r => r.rugRisk)) 50))
      volatilityRisk := qmax 0 (qmin 100 (orDefault (ra.bind (fun r => r.volatilityRisk)) 50))
      liquidityRisk := qmax 0 (qmin 100 (orDefault (ra.bind (fun r => r.liquidityRisk)) 50))
      overallRisk :=
        match ra.bind (fun r => r.overallRisk) with
        | some o => if o ∈ ["low", "medium", "high", "extreme"] then riskOfString o else .medium
        | none => .medium
      warnings :=
        match ra.bind (fun r => r.warnings) with
        | some w => w
        | none => [] }
    keyObservations :=
      match parsed.keyObservations with
      | some l => l
      | none => []
    analyzedAt := nowIso
    aiModel := aiModel }

/-- `MiniMaxService.normalizeResult`. -/
def minimaxNormalizeResult (nowIso : String) (parsed : ParsedResult)
    (signal : AggregatedSignal) : AIAnalysisResult :=
  normalizeResultCore "minimax-abab6.5s" nowIso parsed signal

/-- `DeepSeekService.normalizeResult`. -/
def deepseekNormalizeResult (nowIso : String) (parsed : ParsedResult)
    (signal : AggregatedSignal) : AIAnalysisResult :=
  normalizeResultCore "deepseek-chat" nowIso parsed signal

/-- The `AIProvider` union of the router. -/
inductive AIProvider
  | deepseek
  | minimax
  | ruleBased
  | auto
deriving DecidableEq

/-- `AIRouterConfig` (API keys are modelled by whether the corresponding
backend exists in `RouterBackends`). -/
structure AIRouterConfig where
  primaryProvider : AIProvider
  fallbackProvider : AIProvider
  enableFallback : Bool
deriving DecidableEq

/-- The delegated backends owned by the router: `none` means the service is
not configured (no API key); a configured backend is an arbitrary
`analyzeSignal` behaviour that either returns a result or throws. -/
structure RouterBackends where
  deepseek : Option (AggregatedSignal → Except String AIAnalysisResult)
  minimax : Option (AggregatedSignal → Except String AIAnalysisResult)

/-- `AIRouter.selectProvider`. -/
def selectProvider (cfg : AIRouterConfig) (be : RouterBackends) : AIProvider :=
  if cfg.primaryProvider ≠ AIProvider.auto then cfg.primaryProvider
  else if be.deepseek.isSome then .deepseek
  else if be.minimax.isSome then .minimax
  else .ruleBased

/-- `AIRouter.analyzeWithProvider` (the `switch` sends both `rule-based` and
the `default` case to the rule-based engine, which never throws). -/
def analyzeWithProvider (be : RouterBackends) (nowIso : String)
    (signal : AggregatedSignal) : AIProvider → Except String AIAnalysisResult
  | .deepseek =>
    match be.deepseek with
    | none => .error "DeepSeek未配置"
    | some f => f signal
  | .minimax =>
    match be.minimax with
    | none => .error "MiniMax未配置"
    | some f => f signal
  | _ => .ok (ruleBasedAnalyze nowIso signal)

/-- `AIRouter.analyze`: primary attempt, then a single fallback attempt when
enabled and distinct from the failed provider; otherwise the error
propagates. -/
def routerAnalyze (cfg : AIRouterConfig) (be : RouterBackends) (nowIso : String)
    (signal : AggregatedSignal) : Except String AIAnalysisResult :=
  let provider := selectProvider cfg be
  match analyzeWithProvider be nowIso signal provider with
  | .ok r => .ok r
  | .error e =>
    if cfg.enableFallback ∧ cfg.fallbackProvider ≠ provider then
      analyzeWithProvider be nowIso signal cfg.fallbackProvider
    else .error e

/-- `AIRouter.createFallbackResult`: the synthetic neutral recommendation used
when all AI attempts failed. -/
def createFallbackResult (nowIso : String) (signal : AggregatedSignal) : AIAnalysisResult :=
  { signalId := signal.id
    recommendation := .watch
    confidence := 50
    reasoning := ["AI分析服务暂时不可用，请谨慎决策"]
    entryStrategy := {
      suggestedEntryPrice := signal.token.priceUsd
      suggestedStopLoss := signal.token.priceUsd * (8 / 10)
      suggestedTakeProfit := signal.token.priceUsd * (13 / 10)
      positionSize := .small
      maxPositionUsd := 100
      timeHorizon := .short }
    riskAnalysis := {
      rugRisk := 50
      volatilityRisk := 50
      liquidityRisk := 50
      overallRisk := .high
      warnings := ["AI分析失败，请自行研究"] }
    keyObservations := ["信号聚合成功，但AI分析失败"]
    analyzedAt := nowIso
    aiModel := "fallback" }

/-- `AIRouter.analyzeBatch`: one result per input signal in input order, the
per-signal failure handler substituting `createFallbackResult`. -/
def routerAnalyzeBatch (cfg : AIRouterConfig) (be : RouterBackends) (nowIso : String)
    (signals : List AggregatedSignal) : List AIAnalysisResult :=
  signals.map fun signal =>
    match routerAnalyze cfg be nowIso signal with
    | .ok r => r
    | .error _ => createFallbackResult nowIso signal

/-- The score computation of `BirdeyeService.convertToSignal` (base 50 plus
additive bonuses, clamped to 100 before the urgency mapping). -/
def birdeyeScore (volume24h liquidity priceChange24h holderCount : ℚ)
    (isNew : Bool) : ℚ :=
  let score : ℚ := 50
  let score := if 100000 < volume24h then score + 15 else score
  let score := if 500000 < volume24h then score + 10 else score
  let score := if 50000 < liquidity then score + 10 else score
  let score := if 50 < priceChange24h then score + 15 else score
  let score := if 100 < priceChange24h then score + 10 else score
  let score := if isNew then score + 10 else score
  let score := if 1000 < holderCount then score + 5 else score
  qmin score 100

/-- The urgency mapping of `BirdeyeService.convertToSignal`: new tokens with
24h volume above $100k are critical regardless of score. -/
def birdeyeUrgency (score : ℚ) (isNew : Bool) (volume24h : ℚ) : Urgency :=
  if 90 ≤ score ∨ (isNew ∧ 100000 < volume24h) then .critical
  else if 75 ≤ score then .high
  else if 60 ≤ score then .medium
  else .low

/-- The score computation of `DexScreenerService.convertToSignal` (the urgency
mapping reads this sum before the final clamp to 100). -/
def dexScore (volume24h liquidityUsd priceChange24h : ℚ) (isNew : Bool) : ℚ :=
  let score : ℚ := 50
  let score := if 100000 < volume24h then score + 20 else score
  let score := if 500000 < volume24h then score + 15 else score
  let score := if 50000 < liquidityUsd then score + 10 else score
  let score := if isNew then score + 10 else score
  let score := if 50 < priceChange24h then score + 15 else score
  score

/-- The urgency mapping of `DexScreenerService.convertToSignal`: thresholds on
the score only. -/
def dexUrgency (score : ℚ) : Urgency :=
  if 90 ≤ score then .critical
  else if 75 ≤ score then .high
  else if 60 ≤ score then .medium
  else .low

/-- `MultiPlatformMonitor.shouldNotify` (the `signal` argument of the source
is unused by the decision). -/
def shouldNotify (minAiConfidence : ℚ) (analysis : AIAnalysisResult) : Bool :=
  if !(analysis.recommendation = Recommendation.buy ∨
       analysis.recommendation = Recommendation.strong_buy : Bool) then false
  else if analysis.confidence < minAiConfidence then false
  else if analysis.riskAnalysis.overallRisk = RiskLevel.extreme ∧
          analysis.recommendation ≠ Recommendation.strong_buy then false
  else true

/-- The notification selection of `MultiPlatformMonitor.runScan` step 7: the
(signal, analysis) pairs handed to the notifier, in order. -/
def notifiedPairs (minAiConfidence : ℚ)
    (pairs : List (AggregatedSignal × AIAnalysisResult)) :
    List (AggregatedSignal × AIAnalysisResult) :=
  pairs.filter (fun p => shouldNotify minAiConfidence p.2)

/-- A concrete token snapshot for example scenarios. -/
def exToken (liq vol : ℚ) : TokenSnapshot :=
  { address := "a", symbol := "T", name := "T", priceUsd := 1, marketCap := 1000000,
    liquidityUsd := liq, volume24h := vol, priceChange24h := 10, holderCount := 1000,
    createdAt := "c" }

/-- A concrete signal for example scenarios: score, confirming platforms, risk
level, liquidity and 24h volume vary; the rest is a fixed mature-token
snapshot (age 48h, not a new token). -/
def exSignal (addr : String) (score : ℚ) (platforms : List String)
    (risk : RiskLevel) (liq vol : ℚ) : AggregatedSignal :=
  { id := addr, tokenAddress := addr, chain := "solana", timestamp := "t",
    token := exToken liq vol, type := .new_listing, score := score, urgency := .low,
    sources := platforms.map (fun p => { platform := p, timestamp := "t", confidence := score }),
    metrics := { platformCount := platforms.length, confirmingPlatforms := platforms,
                 volumeScore := 1, priceScore := 2, socialScore := 0, whaleScore := 0 },
    riskLevel := risk, riskFactors := [], isNewToken := false, ageHours := 48 }

/-- The spec's recommendation decision table (§4.3 step 4), first match
wins. -/
def recommendationSpecTable (score : ℚ) (risk : RiskLevel) : Recommendation :=
  if risk = RiskLevel.extreme then .avoid
  else if 85 ≤ score ∧ risk = RiskLevel.low then .strong_buy
  else if 75 ≤ score ∧ risk ≠ RiskLevel.high then .buy
  else if 60 ≤ score then .watch
  else .avoid

/-- The spec's confidence formula (§4.3 step 5): score, +5 multi-platform,
+5 low risk, −15 high, −30 extreme, clamped to [0, 100]. -/
def confidenceSpecFormula (score : ℚ) (multi : Bool) (risk : RiskLevel) : ℚ :=
  qmax 0 (qmin 100 (score + (if multi then 5 else 0) + (if risk = RiskLevel.low then 5 else 0)
    - (if risk = RiskLevel.high then 15 else 0)
    - (if risk = RiskLevel.extreme then 30 else 0)))

/-- The example signal of C6: score 88, snapshot whose advisory-level risk
comes out `low`, confirmed by two platforms. -/
def exSignal88 : AggregatedSignal :=
  exSignal "y" 88 ["dexscreener", "birdeye"] .low 100000 150000

/-- C6: the rule-based recommendation decision, evaluated first-match-wins
over (score, overallRisk), matches the spec's table (hence is total on
scores × risk levels), and the confidence is the spec's additive clamped
formula; on the score-88 / low-risk / multi-platform example the engine
returns `strong_buy` with confidence 98 ≥ 88. -/
theorem c6_recommendation_decision :
    (∀ (s : AggregatedSignal) (ra : RiskAnalysis),
      determineRecommendation s ra = recommendationSpecTable s.score ra.overallRisk) ∧
    (∀ (s : AggregatedSignal) (ma : MarketAnalysis) (ra : RiskAnalysis),
      calculateConfidence s ma ra =
        confidenceSpecFormula s.score ma.multiPlatformConfirmed ra.overallRisk) ∧
    (analyzeRisk exSignal88).overallRisk = RiskLevel.low ∧
    2 ≤ exSignal88.metrics.platformCount ∧
    (ruleBasedAnalyze "t" exSignal88).recommendation = Recommendation.strong_buy ∧
    (ruleBasedAnalyze "t" exSignal88).confidence = 98 ∧
    88 ≤ (ruleBasedAnalyze "t" exSignal88).confidence := by
  refine ⟨fun s ra => rfl, fun s ma ra => ?_, ?_, ?_, ?_, ?_, ?_⟩
  · simp only [calculateConfidence, confidenceSpecFormula]
    cases hr : ra.overallRisk <;> cases hm : ma.multiPlatformConfirmed <;>
      simp [hr, hm]
  · norm_num +decide [analyzeRisk, exSignal88, exSignal, exToken, qmin, qabs]
  · norm_num [exSignal88, exSignal]
  · norm_num +decide [ruleBasedAnalyze, analyzeRisk, analyzeMarketMetrics,
      determineRecommendation, exSignal88, exSignal, exToken, qmin, qmax, qabs]
  · norm_num +decide [ruleBasedAnalyze, analyzeRisk, analyzeMarketMetrics, calculateConfidence,
      exSignal88, exSignal, exToken, qmin, qmax, qabs, calculateVolumeHealth]
  · norm_num +decide [ruleBasedAnalyze, analyzeRisk, analyzeMarketMetrics, calculateConfidence,
      exSignal88, exSignal, exToken, qmin, qmax, qabs, calculateVolumeHealth]

/-- The notify predicate of the spec (§4.5). -/
def shouldNotifySpec (minAiConfidence : ℚ) (a : AIAnalysisResult) : Prop :=
  (a.recommendation = Recommendation.buy ∨ a.recommendation = Recommendation.strong_buy) ∧
  minAiConfidence ≤ a.confidence ∧
  ¬(a.riskAnalysis.overallRisk = RiskLevel.extreme ∧
    a.recommendation ≠ Recommendation.strong_buy)

/-- C7: a (signal, recommendation) pair of a scan cycle is handed to the
notifier exactly when the recommendation is buy/strong_buy, the confidence
reaches the configured minimum, and the pair is not extreme-risk without
being a strong_buy. -/
theorem c7_notify_predicate :
    (∀ (minAi : ℚ) (a : AIAnalysisResult),
      shouldNotify minAi a = true ↔ shouldNotifySpec minAi a) ∧
    (∀ (minAi : ℚ) (pairs : List (AggregatedSignal × AIAnalysisResult))
       (p : AggregatedSignal × AIAnalysisResult),
      p ∈ notifiedPairs minAi pairs ↔ p ∈ pairs ∧ shouldNotifySpec minAi p.2) := by
  have h : ∀ (minAi : ℚ) (a : AIAnalysisResult),
      shouldNotify minAi a = true ↔ shouldNotifySpec minAi a := by
    intro minAi a
    cases hr : a.recommendation <;> cases ho : a.riskAnalysis.overallRisk <;>
      by_cases hc : a.confidence < minAi <;>
      simp [shouldNotify, shouldNotifySpec, hr, ho, hc, not_lt] <;>
      simp [not_lt] at hc <;> simp [hc]
  refine ⟨h, fun minAi pairs p => ?_⟩
  rw [notifiedPairs, List.mem_filter, h]

/-- The spec's urgency mapping rule (§4.1): score ≥ 90, or a new token with
24h volume above $100k, is critical; then score ≥ 75 high, ≥ 60 medium,
else low. -/
def specUrgencyRule (score : ℚ) (isNew : Bool) (volume24h : ℚ) : Urgency :=
  if 90 ≤ score ∨ (isNew ∧ 100000 < volume24h) then .critical
  else if 75 ≤ score then .high
  else if 60 ≤ score then .medium
  else .low

/-- C8 counterexample: a new DexScreener token with 24h volume $150k (> $100k)
but score 80 (volume ≤ $500k, liquidity ≤ $50k, price change ≤ 50%) gets
urgency `high` from the DexScreener adapter, while the claimed common rule
(as implemented by Birdeye) would make it `critical`. -/
theorem c8_urgency_counterexample :
    dexScore 150000 20000 10 true = 80 ∧
    dexUrgency (dexScore 150000 20000 10 true) = Urgency.high ∧
    specUrgencyRule (dexScore 150000 20000 10 true) true 150000 = Urgency.critical ∧
    birdeyeUrgency (birdeyeScore 150000 20000 10 500 true) true 150000 = Urgency.critical ∧
    Urgency.high ≠ Urgency.critical := by
  refine ⟨?_, ?_, ?_, ?_, by decide⟩ <;>
    norm_num +decide [dexScore, dexUrgency, specUrgencyRule, birdeyeScore, birdeyeUrgency, qmin]

/-- C8 (amended): the Birdeye adapter's urgency mapping is exactly the spec's
rule (including the new-token/volume critical override); the DexScreener
adapter implements the rule with the new-token override absent, i.e. the pure
score thresholds (≥90 critical, ≥75 high, ≥60 medium, else low). -/
theorem c8_urgency_amended :
    (∀ (score volume24h : ℚ) (isNew : Bool),
      birdeyeUrgency score isNew volume24h = specUrgencyRule score isNew volume24h) ∧
    (∀ score : ℚ, dexUrgency score = specUrgencyRule score false 0) := by
  refine ⟨fun score vol isNew => rfl, fun score => ?_⟩
  simp [dexUrgency, specUrgencyRule]

/-- C9: both delegated-backend normalizers coerce every unrecognized
`recommendation` / `positionSize` / `overallRisk` / `timeHorizon` string to
the safe defaults `watch` / `small` / `medium` / `short`, and always produce
a result for the input signal (never reject the response). -/
theorem c9_enum_defaults :
    (∀ (nowIso : String) (parsed : ParsedResult) (signal : AggregatedSignal),
      minimaxNormalizeResult nowIso parsed signal =
        normalizeResultCore "minimax-abab6.5s" nowIso parsed signal ∧
      deepseekNormalizeResult nowIso parsed signal =
        normalizeResultCore "deepseek-chat" nowIso parsed signal) ∧
    (∀ (aiModel nowIso : String) (parsed : ParsedResult) (signal : AggregatedSignal),
      (∀ r, parsed.recommendation = some r →
        r ∉ (["strong_buy", "buy", "watch", "avoid"] : List String) →
        (normalizeResultCore aiModel nowIso parsed signal).recommendation =
          Recommendation.watch) ∧
      (∀ p, parsed.entryStrategy.bind (fun e => e.positionSize) = some p →
        p ∉ (["small", "medium", "large"] : List String) →
        (normalizeResultCore aiModel nowIso parsed signal).entryStrategy.positionSize =
          PositionSize.small) ∧
      (∀ o, parsed.riskAnalysis.bind (fun r => r.overallRisk) = some o →
        o ∉ (["low", "medium", "high", "extreme"] : List String) →
        (normalizeResultCore aiModel nowIso parsed signal).riskAnalysis.overallRisk =
          RiskLevel.medium) ∧
      (∀ t, parsed.entryStrategy.bind (fun e => e.timeHorizon) = some t →
        t ∉ (["scalp", "short", "medium", "long"] : List String) →
        (normalizeResultCore aiModel nowIso parsed signal).entryStrategy.timeHorizon =
          TimeHorizon.short) ∧
      (normalizeResultCore aiModel nowIso parsed signal).signalId = signal.id ∧
      (normalizeResultCore aiModel nowIso parsed signal).aiModel = aiModel) := by
  refine ⟨fun nowIso parsed signal => ⟨rfl, rfl⟩, fun aiModel nowIso parsed signal => ?_⟩
  refine ⟨?_, ?_, ?_, ?_, rfl, rfl⟩
  · intro r h hn
    simp only [normalizeResultCore, h]
    simp [hn]
  · intro p h hn
    simp only [normalizeResultCore, h]
    simp [hn]
  · intro o h hn
    simp only [normalizeResultCore, h]
    simp [hn]
  · intro t h hn
    simp only [normalizeResultCore, h]
    simp [hn]

/-- A backend response carrying only unrecognized enum strings. -/
def garbageParsed : ParsedResult :=
  { recommendation := some "hodl", confidence := some 170,
    reasoning := none,
    entryStrategy := some
      { suggestedEntryPrice := none, suggestedStopLoss := none,
        suggestedTakeProfit := none, positionSize := some "yolo",
        maxPositionUsd := none, timeHorizon := some "forever" },
    riskAnalysis := some
      { rugRisk := none, volatilityRisk := none, liquidityRisk := none,
        overallRisk := some "ultra", warnings := none },
    keyObservations := none }

/-- Witness for C9 at a concrete garbage response. -/
theorem c9_enum_defaults_witness :
    (normalizeResultCore "minimax-abab6.5s" "t" garbageParsed
      (exSignal "w" 70 [] RiskLevel.low 10000 5000)).recommendation = Recommendation.watch ∧
    (normalizeResultCore "minimax-abab6.5s" "t" garbageParsed
      (exSignal "w" 70 [] RiskLevel.low 10000 5000)).entryStrategy.positionSize =
      PositionSize.small ∧
    (normalizeResultCore "minimax-abab6.5s" "t" garbageParsed
      (exSignal "w" 70 [] RiskLevel.low 10000 5000)).riskAnalysis.overallRisk =
      RiskLevel.medium ∧
    (normalizeResultCore "minimax-abab6.5s" "t" garbageParsed
      (exSignal "w" 70 [] RiskLevel.low 10000 5000)).entryStrategy.timeHorizon =
      TimeHorizon.short := by
  have h := c9_enum_defaults.2 "minimax-abab6.5s" "t" garbageParsed
    (exSignal "w" 70 [] RiskLevel.low 10000 5000)
  exact ⟨h.1 "hodl" rfl (by decide), h.2.1 "yolo" rfl (by decide),
    h.2.2.1 "ultra" rfl (by decide), h.2.2.2.1 "forever" rfl (by decide)⟩

/-- A backend response reporting a negative confidence. -/
def negConfParsed : ParsedResult :=
  { recommendation := none, confidence := some (-1), reasoning := none,
    entryStrategy := none, riskAnalysis := none, keyObservations := none }

/-- C10 counterexample: a parsed response with confidence −1 normalizes to
confidence 0, so a normalized delegated-backend result CAN carry
confidence 0. -/
theorem c10_confidence_counterexample :
    (minimaxNormalizeResult "t" negConfParsed
      (exSignal "w" 70 [] RiskLevel.low 10000 5000)).confidence = 0 := by
  norm_num [minimaxNormalizeResult, normalizeResultCore, negConfParsed, orDefault,
    qmin, qmax]

/-- C10 (amended): a parsed confidence of exactly 0, or a missing confidence,
normalizes to 50 (the `|| 50` default treats 0 as absent); the normalized
confidence is 0 only when the backend reported a strictly negative
confidence value. -/
theorem c10_confidence_default :
    ∀ (nowIso : String) (parsed : ParsedResult) (signal : AggregatedSignal),
      ((parsed.confidence = some 0 ∨ parsed.confidence = none) →
        (minimaxNormalizeResult nowIso parsed signal).confidence = 50 ∧
        (deepseekNormalizeResult nowIso parsed signal).confidence = 50) ∧
      ((minimaxNormalizeResult nowIso parsed signal).confidence = 0 →
        ∃ v, parsed.confidence = some v ∧ v < 0) ∧
      ((deepseekNormalizeResult nowIso parsed signal).confidence = 0 →
        ∃ v, parsed.confidence = some v ∧ v < 0) := by
  intro nowIso parsed signal
  have key : ∀ c : Option ℚ,
      ((c = some 0 ∨ c = none) → qmax 0 (qmin 100 (orDefault c 50)) = 50) ∧
      (qmax 0 (qmin 100 (orDefault c 50)) = 0 → ∃ v, c = some v ∧ v < 0) := by
    intro c
    rcases c with _ | v
    · refine ⟨fun _ => by norm_num [orDefault, qmin, qmax], fun h => ?_⟩
      norm_num [orDefault, qmin, qmax] at h
    · by_cases hv : v = 0
      · subst hv
        refine ⟨fun _ => by norm_num [orDefault, qmin, qmax], fun h => ?_⟩
        norm_num [orDefault, qmin, qmax] at h
      · refine ⟨fun h => ?_, fun h => ?_⟩
        · rcases h with h | h
          · exact absurd (Option.some_injective _ h) hv
          · exact absurd h (by simp)
        · refine ⟨v, rfl, ?_⟩
          simp only [orDefault, if_neg hv, qmin, qmax] at h
          split_ifs at h with h1 h2 h3
          · norm_num at h2
          · norm_num at h
          · exact lt_of_le_of_ne h3 hv
          · exact absurd h hv
  have hm : (minimaxNormalizeResult nowIso parsed signal).confidence =
      qmax 0 (qmin 100 (orDefault parsed.confidence 50)) := rfl
  have hd : (deepseekNormalizeResult nowIso parsed signal).confidence =
      qmax 0 (qmin 100 (orDefault parsed.confidence 50)) := rfl
  refine ⟨fun h => ⟨?_, ?_⟩, fun h => ?_, fun h => ?_⟩
  · rw [hm]; exact (key parsed.confidence).1 h
  · rw [hd]; exact (key parsed.confidence).1 h
  · rw [hm] at h; exact (key parsed.confidence).2 h
  · rw [hd] at h; exact (key parsed.confidence).2 h

/-- A backend response reporting confidence exactly 0. -/
def zeroConfParsed : ParsedResult :=
  { recommendation := none, confidence := some 0, reasoning := none,
    entryStrategy := none, riskAnalysis := none, keyObservations := none }

/-- Witness for C10 (amended) at confidence-0 and negative-confidence
responses. -/
theorem c10_confidence_default_witness :
    ((minimaxNormalizeResult "t" zeroConfParsed
        (exSignal "w" 70 [] RiskLevel.low 10000 5000)).confidence = 50 ∧
      (deepseekNormalizeResult "t" zeroConfParsed
        (exSignal "w" 70 [] RiskLevel.low 10000 5000)).confidence = 50) ∧
    (∃ v, negConfParsed.confidence = some v ∧ v < 0) := by
  have h0 := c10_confidence_default "t" zeroConfParsed
    (exSignal "w" 70 [] RiskLevel.low 10000 5000)
  have hn := c10_confidence_default "t" negConfParsed
    (exSignal "w" 70 [] RiskLevel.low 10000 5000)
  refine ⟨h0.1 (Or.inl rfl), hn.2.1 ?_⟩
  norm_num [minimaxNormalizeResult, normalizeResultCore, negConfParsed, orDefault,
    qmin, qmax]

/-- The warning string of the router's synthetic fallback result. -/
def fallbackWarning : String := "AI分析失败，请自行研究"

/-- C1: `analyzeBatch` is total (never raises) and returns exactly one result
per input signal in input order; a signal whose analysis fails even after
fallback yields the synthetic result with recommendation `watch`, confidence
50, overall risk `high`, an analysis-unavailable warning, and the distinct
model tag "fallback". -/
theorem c1_analyzeBatch_total :
    ∀ (cfg : AIRouterConfig) (be : RouterBackends) (nowIso : String)
      (signals : List AggregatedSignal),
      (routerAnalyzeBatch cfg be nowIso signals).length = signals.length ∧
      (∀ (i : Nat) (s : AggregatedSignal), signals[i]? = some s →
        (routerAnalyzeBatch cfg be nowIso signals)[i]? =
          some (match routerAnalyze cfg be nowIso s with
                | .ok r => r
                | .error _ => createFallbackResult nowIso s)) ∧
      (∀ s : AggregatedSignal,
        (createFallbackResult nowIso s).recommendation = Recommendation.watch ∧
        (createFallbackResult nowIso s).confidence = 50 ∧
        (createFallbackResult nowIso s).riskAnalysis.overallRisk = RiskLevel.high ∧
        (createFallbackResult nowIso s).riskAnalysis.warnings = [fallbackWarning] ∧
        (createFallbackResult nowIso s).aiModel = "fallback" ∧
        (createFallbackResult nowIso s).aiModel ≠ (ruleBasedAnalyze nowIso s).aiModel) := by
  intro cfg be nowIso signals
  refine ⟨by simp [routerAnalyzeBatch], ?_, ?_⟩
  · intro i s hi
    simp [routerAnalyzeBatch, hi]
  · intro s
    exact ⟨rfl, rfl, rfl, rfl, rfl, by simp [createFallbackResult, ruleBasedAnalyze]⟩

/-- A router configuration pinning a delegated backend with a delegated
fallback (so that total failure is reachable). -/
def failCfg : AIRouterConfig :=
  { primaryProvider := .deepseek, fallbackProvider := .minimax, enableFallback := true }

/-- Backends whose `analyzeSignal` always throws. -/
def failBackends : RouterBackends :=
  { deepseek := some fun _ => .error "晚点再试", minimax := some fun _ => .error "quota" }

/-- Witness for C1: with every configured backend throwing, the batch still
returns one synthetic fallback result for its one input signal. -/
theorem c1_analyzeBatch_total_witness :
    (routerAnalyzeBatch failCfg failBackends "t"
      [exSignal "w" 70 [] RiskLevel.low 10000 5000]).length = 1 ∧
    (routerAnalyzeBatch failCfg failBackends "t"
      [exSignal "w" 70 [] RiskLevel.low 10000 5000])[0]? =
      some (createFallbackResult "t" (exSignal "w" 70 [] RiskLevel.low 10000 5000)) := by
  have h := c1_analyzeBatch_total failCfg failBackends "t"
    [exSignal "w" 70 [] RiskLevel.low 10000 5000]
  refine ⟨h.1, ?_⟩
  have h2 := h.2.1 0 (exSignal "w" 70 [] RiskLevel.low 10000 5000) rfl
  rw [h2]
  rfl

/-- The spec's merged-score formula (§4.2): min(100, average of the group
scores + min((DISTINCT confirming platforms − 1) × 10, 20)). -/
def specMergedScore (scores : List ℚ) (distinctPlatforms : Nat) : ℚ :=
  qmin 100 (scores.sum / (scores.length : ℚ) +
    qmin (((distinctPlatforms : ℚ) - 1) * 10) 20)

/-- Two same-token signals reported by the SAME platform, scores 70 and 74. -/
def sDupA : AggregatedSignal := exSignal "x" 70 ["dexscreener"] .low 100000 150000

/-- Second same-platform signal for the C2 counterexample. -/
def sDupB : AggregatedSignal := exSignal "x" 74 ["dexscreener"] .low 100000 150000

/-- C2 counterexample: for a group of two same-token signals confirmed by the
SAME platform (one distinct platform), the code still adds a +10 bonus —
merged score 82 — because the bonus is computed from the concatenated
confirming-platform list before deduplication, while the claimed
distinct-platform formula yields 72. -/
theorem c2_merge_score_counterexample :
    (mergeSignals 5 [sDupA, sDupB]).map (fun s => s.score) = [82] ∧
    dedupFirst (sDupA.metrics.confirmingPlatforms ++
      sDupB.metrics.confirmingPlatforms) = ["dexscreener"] ∧
    specMergedScore [70, 74] 1 = 72 ∧
    (82 : ℚ) ≠ 72 := by
  refine ⟨?_, by decide, by norm_num [specMergedScore, qmin], by norm_num⟩
  norm_num +decide [mergeSignals, groupByKey, addToGroups, mergeOne, mergeGroup,
    signalKey, sDupA, sDupB, exSignal, exToken, dedupFirst, maxQ, qmin, qmax]

/-- Same-token signals from two different platforms, scores 70 and 74. -/
def sPlatA : AggregatedSignal := exSignal "x" 70 ["dexscreener"] .low 100000 150000

/-- Second distinct-platform signal for the C2 example scenario. -/
def sPlatB : AggregatedSignal := exSignal "x" 74 ["birdeye"] .low 100000 150000

/-- C2 (amended): for every merge group (base :: rest) of same-token signals
the merged score is min(100, average + min((total confirming-platform
ENTRIES − 1) × 10, 20)) and `platformCount` is that total entry count, both
counted with multiplicity (the concatenation of the group members'
confirming-platform lists); for a two-signal group this takes the
(s1 + s2)/2 form, and on the two-platform example with scores 70 and 74 it
gives score 82 and platformCount 2, as the claim's example states. -/
theorem c2_merge_score :
    (∀ (now : Nat) (k : String) (base : AggregatedSignal) (rest : List AggregatedSignal),
      (mergeGroup now k base rest).score =
        qmin ((((base :: rest).map (fun s => s.score)).sum / ((base :: rest).length : ℚ)) +
          qmin ((((((base :: rest).map
              (fun s => s.metrics.confirmingPlatforms.length)).sum : ℕ) : ℚ) - 1) * 10) 20) 100 ∧
      (mergeGroup now k base rest).metrics.platformCount =
        ((base :: rest).map (fun s => s.metrics.confirmingPlatforms.length)).sum) ∧
    (∀ (now : Nat) (s1 s2 : AggregatedSignal), signalKey s1 = signalKey s2 →
      (mergeSignals now [s1, s2]).map (fun s => (s.score, s.metrics.platformCount)) =
        [(qmin ((s1.score + s2.score) / 2 +
            qmin (((s1.metrics.confirmingPlatforms.length : ℚ) +
                   (s2.metrics.confirmingPlatforms.length : ℚ) - 1) * 10) 20) 100,
          s1.metrics.confirmingPlatforms.length + s2.metrics.confirmingPlatforms.length)]) ∧
    (mergeSignals 5 [sPlatA, sPlatB]).map (fun s => (s.score, s.metrics.platformCount)) =
      [((82 : ℚ), 2)] := by
  refine ⟨?_, ?_, ?_⟩
  · intro now k base rest
    constructor
    · simp only [mergeGroup, List.length_flatMap]
      rfl
    · simp only [mergeGroup, List.length_flatMap]
      rfl
  · intro now s1 s2 h
    have e1 : groupByKey [s1, s2] = [(signalKey s1, s1, [s2])] := by
      simp [groupByKey, addToGroups, h]
    simp [mergeSignals, e1, mergeOne, mergeGroup]
  · norm_num +decide [mergeSignals, groupByKey, addToGroups, mergeOne, mergeGroup,
      signalKey, sPlatA, sPlatB, exSignal, exToken, dedupFirst, maxQ, qmin, qmax]

/-- Witness for C2 (amended) at the concrete two-platform example. -/
theorem c2_merge_score_witness :
    (mergeSignals 5 [sPlatA, sPlatB]).map (fun s => (s.score, s.metrics.platformCount)) =
      [(qmin ((sPlatA.score + sPlatB.score) / 2 +
          qmin (((sPlatA.metrics.confirmingPlatforms.length : ℚ) +
                 (sPlatB.metrics.confirmingPlatforms.length : ℚ) - 1) * 10) 20) 100,
        sPlatA.metrics.confirmingPlatforms.length +
          sPlatB.metrics.confirmingPlatforms.length)] :=
  c2_merge_score.2.1 5 sPlatA sPlatB rfl

/-- An extreme-risk signal with score 79 (passes score, suppression and
dead-token conditions). -/
def extreme79 : AggregatedSignal := exSignal "e" 79 ["dexscreener"] .extreme 10000 5000

/-- The identical signal with score 81. -/
def extreme81 : AggregatedSignal := exSignal "e" 81 ["dexscreener"] .extreme 10000 5000

/-- A dead-token signal: liquidityUsd 3000 (< 5000) and volume24h 500
(< 1000), with arbitrary score and risk level. -/
def deadTokenSig (score : ℚ) (risk : RiskLevel) : AggregatedSignal :=
  exSignal "d" score ["dexscreener"] risk 3000 500

/-- C4: `filterSignals` applies its drop conditions in source order —
(a) score below the configured minimum, (b) token key suppressed,
(c) extreme risk with score < 80, (d) dead-token floor — any failing
condition drops the signal unchanged, and a passing signal is appended and
recorded in the suppression map at the current time.  Consequently the
extreme-risk score-79 signal is dropped while the identical score-81 signal
survives, and a liquidity-3000 / volume-500 signal is dropped for every score
and risk level. -/
theorem c4_filter_conditions :
    (∀ (cfg : AggregationConfig) (now : ℚ) (acc : List AggregatedSignal) (m : SuppMap)
       (s : AggregatedSignal),
      (s.score < cfg.minConfidenceScore → filterStep cfg now (acc, m) s = (acc, m)) ∧
      (¬ s.score < cfg.minConfidenceScore →
        isSuppressed m (signalKey s) now cfg.duplicateTokenThreshold = true →
        filterStep cfg now (acc, m) s = (acc, m)) ∧
      (¬ s.score < cfg.minConfidenceScore →
        isSuppressed m (signalKey s) now cfg.duplicateTokenThreshold = false →
        s.riskLevel = RiskLevel.extreme → s.score < 80 →
        filterStep cfg now (acc, m) s = (acc, m)) ∧
      (¬ s.score < cfg.minConfidenceScore →
        isSuppressed m (signalKey s) now cfg.duplicateTokenThreshold = false →
        ¬(s.riskLevel = RiskLevel.extreme ∧ s.score < 80) →
        s.token.liquidityUsd < 5000 → s.token.volume24h < 1000 →
        filterStep cfg now (acc, m) s = (acc, m)) ∧
      (¬ s.score < cfg.minConfidenceScore →
        isSuppressed m (signalKey s) now cfg.duplicateTokenThreshold = false →
        ¬(s.riskLevel = RiskLevel.extreme ∧ s.score < 80) →
        ¬(s.token.liquidityUsd < 5000 ∧ s.token.volume24h < 1000) →
        filterStep cfg now (acc, m) s =
          (acc ++ [s], mapInsert m (signalKey s) now))) ∧
    (filterSignals defaultAggregationConfig 1000000 [] [extreme79]).1 = [] ∧
    (filterSignals defaultAggregationConfig 1000000 [] [extreme81]).1 = [extreme81] ∧
    (∀ (score : ℚ) (risk : RiskLevel),
      (filterSignals defaultAggregationConfig 1000000 [] [deadTokenSig score risk]).1 = []) := by
  refine ⟨fun cfg now acc m s => ⟨?_, ?_, ?_, ?_, ?_⟩, ?_, ?_, ?_⟩
  · intro h1; simp [filterStep, h1]
  · intro h1 h2; simp [filterStep, h1, h2]
  · intro h1 h2 h3 h4; simp [filterStep, h1, h2, h3, h4]
  · intro h1 h2 h3 h4 h5; simp [filterStep, h1, h2, h3, h4, h5]
  · intro h1 h2 h3 h4; simp [filterStep, h1, h2, h3, h4]
  · norm_num +decide [filterSignals, filterStep, isSuppressed, mapLookup,
      cleanupProcessedTokens, defaultAggregationConfig, extreme79, exSignal, exToken]
  · norm_num +decide [filterSignals, filterStep, isSuppressed, mapLookup,
      cleanupProcessedTokens, defaultAggregationConfig, extreme81, exSignal, exToken]
  · intro score risk
    simp only [filterSignals, List.foldl_cons, List.foldl_nil, filterStep, isSuppressed,
      mapLookup, deadTokenSig, exSignal, exToken, defaultAggregationConfig]
    norm_num

/-- Witness for C4: the score-79 extreme signal is dropped by condition (c),
the score-81 one passes and is recorded, and a concrete dead token with high
score is dropped. -/
theorem c4_filter_conditions_witness :
    filterStep defaultAggregationConfig 1000000 ([], []) extreme79 = ([], []) ∧
    filterStep defaultAggregationConfig 1000000 ([], []) extreme81 =
      ([extreme81], mapInsert [] (signalKey extreme81) 1000000) ∧
    (filterSignals defaultAggregationConfig 1000000 [] [deadTokenSig 95 RiskLevel.low]).1 = [] := by
  have h := c4_filter_conditions
  refine ⟨?_, ?_, h.2.2.2 95 RiskLevel.low⟩
  · exact (h.1 defaultAggregationConfig 1000000 [] [] extreme79).2.2.1
      (by norm_num [extreme79, exSignal, defaultAggregationConfig])
      (by norm_num [isSuppressed, mapLookup])
      rfl
      (by norm_num [extreme79, exSignal])
  · have := (h.1 defaultAggregationConfig 1000000 [] [] extreme81).2.2.2.2
      (by norm_num [extreme81, exSignal, defaultAggregationConfig])
      (by norm_num [isSuppressed, mapLookup])
      (by norm_num [extreme81, exSignal])
      (by norm_num [extreme81, exSignal, exToken])
    simpa using this

/-- Looking up the key just written by `mapInsert` yields the new value. -/
theorem mapLookup_insert_self (m : SuppMap) (k : String) (v : ℚ) :
    mapLookup (mapInsert m k v) k = some v := by
  induction m with
  | nil => simp [mapInsert, mapLookup]
  | cons kv m ih =>
    by_cases h : kv.1 = k
    · simp [mapInsert, mapLookup, h]
    · simp [mapInsert, mapLookup, h, ih]

/-- Every entry of `mapInsert m k v` is an old entry or the new pair. -/
theorem mem_mapInsert (m : SuppMap) (k : String) (v : ℚ) (kv : String × ℚ) :
    kv ∈ mapInsert m k v → kv ∈ m ∨ kv = (k, v) := by
  induction m with
  | nil => simp [mapInsert]
  | cons kv' m ih =>
    by_cases h : kv'.1 = k
    · simp only [mapInsert, if_pos h, List.mem_cons]
      tauto
    · simp only [mapInsert, if_neg h, List.mem_cons]
      rintro (h1 | h1)
      · tauto
      · rcases ih h1 with h2 | h2 <;> tauto

/-- `filterStep` either drops the signal (state unchanged) or appends it and
records its key at `now`. -/
theorem filterStep_cases (cfg : AggregationConfig) (now : ℚ)
    (st : List AggregatedSignal × SuppMap) (s : AggregatedSignal) :
    filterStep cfg now st s = st ∨
    filterStep cfg now st s = (st.1 ++ [s], mapInsert st.2 (signalKey s) now) := by
  unfold filterStep
  split_ifs <;> simp

/-- Timestamps in the suppression map never exceed `now` after a filter fold
that starts from a map bounded by `now`. -/
theorem foldl_filterStep_map_bound (cfg : AggregationConfig) (now : ℚ)
    (l : List AggregatedSignal) :
    ∀ (acc : List AggregatedSignal) (m : SuppMap),
      (∀ kv ∈ m, kv.2 ≤ now) →
      ∀ kv ∈ (l.foldl (filterStep cfg now) (acc, m)).2, kv.2 ≤ now := by
  induction l with
  | nil => intro acc m hm kv hkv; exact hm kv hkv
  | cons s l ih =>
    intro acc m hm kv hkv
    simp only [List.foldl_cons] at hkv
    rcases filterStep_cases cfg now (acc, m) s with h | h
    · rw [h] at hkv
      exact ih acc m hm kv hkv
    · rw [h] at hkv
      refine ih _ _ ?_ kv hkv
      intro kv' hkv'
      rcases mem_mapInsert _ _ _ _ hkv' with h' | h'
      · exact hm kv' h'
      · rw [h']

/-- A suppressed token key drops the signal without changing the state. -/
theorem filterStep_drop_of_suppressed (cfg : AggregationConfig) (now : ℚ)
    (st : List AggregatedSignal × SuppMap) (s : AggregatedSignal)
    (h : isSuppressed st.2 (signalKey s) now cfg.duplicateTokenThreshold = true) :
    filterStep cfg now st s = st := by
  unfold filterStep
  split_ifs <;> simp_all

/-- C5: within one filter pass, two same-key signals yield at most one
survivor (for a positive suppression window and a nonzero clock); a key absent
from the map or older than the window is eligible to pass again (if the other
conditions hold); and after a pass every remaining suppression entry lies
within the last 24 hours of the pass's `now`. -/
theorem c5_suppression_invariants :
    (∀ (cfg : AggregationConfig) (now : ℚ) (m₀ : SuppMap) (s1 s2 : AggregatedSignal),
      0 < cfg.duplicateTokenThreshold → now ≠ 0 → signalKey s1 = signalKey s2 →
      (filterSignals cfg now m₀ [s1, s2]).1.length ≤ 1) ∧
    (∀ (cfg : AggregationConfig) (now : ℚ) (m₀ : SuppMap) (s : AggregatedSignal),
      (mapLookup m₀ (signalKey s) = none ∨
        ∃ t, mapLookup m₀ (signalKey s) = some t ∧
          cfg.duplicateTokenThreshold ≤ (now - t) / (1000 * 60)) →
      ¬ s.score < cfg.minConfidenceScore →
      ¬(s.riskLevel = RiskLevel.extreme ∧ s.score < 80) →
      ¬(s.token.liquidityUsd < 5000 ∧ s.token.volume24h < 1000) →
      (filterSignals cfg now m₀ [s]).1 = [s]) ∧
    (∀ (cfg : AggregationConfig) (now : ℚ) (m₀ : SuppMap)
       (signals : List AggregatedSignal),
      (∀ kv ∈ m₀, kv.2 ≤ now) →
      ∀ kv ∈ (filterSignals cfg now m₀ signals).2,
        now - 24 * 60 * 60 * 1000 ≤ kv.2 ∧ kv.2 ≤ now) := by
  refine ⟨?_, ?_, ?_⟩
  · intro cfg now m₀ s1 s2 hth hnow hkey
    simp only [filterSignals, List.foldl_cons, List.foldl_nil]
    rcases filterStep_cases cfg now ([], m₀) s1 with h1 | h1
    · rw [h1]
      rcases filterStep_cases cfg now ([], m₀) s2 with h2 | h2 <;> rw [h2] <;> simp
    · rw [h1]
      rw [filterStep_drop_of_suppressed cfg now _ s2 ?_]
      · simp
      · rw [← hkey]
        simp [isSuppressed, mapLookup_insert_self, hnow, sub_self, hth]
  · intro cfg now m₀ s hlook hs hr hd
    have hsup : isSuppressed m₀ (signalKey s) now cfg.duplicateTokenThreshold = false := by
      rcases hlook with h | ⟨t, ht, hge⟩
      · simp [isSuppressed, h]
      · have hnl : ¬ ((now - t) / (1000 * 60) < cfg.duplicateTokenThreshold) :=
          not_lt.mpr hge
        simp [isSuppressed, ht, hnl]
    simp only [filterSignals, List.foldl_cons, List.foldl_nil]
    simp [filterStep, hs, hsup, hr, hd]
  · intro cfg now m₀ signals hm kv hkv
    simp only [filterSignals] at hkv
    rw [cleanupProcessedTokens, List.mem_filter] at hkv
    obtain ⟨hmem, hcond⟩ := hkv
    refine ⟨?_, foldl_filterStep_map_bound cfg now signals [] m₀ hm kv hmem⟩
    simp only [Bool.not_eq_true', decide_eq_false_iff_not, not_lt] at hcond
    exact hcond

/-- Witness for C5 at concrete inputs: duplicate pair in one pass, an
unsuppressed single signal, and a prior map entry surviving the 24h prune. -/
theorem c5_suppression_invariants_witness :
    (filterSignals defaultAggregationConfig 1000000 []
      [exSignal "x" 70 ["a"] RiskLevel.low 10000 5000,
       exSignal "x" 75 ["b"] RiskLevel.low 10000 5000]).1.length ≤ 1 ∧
    (filterSignals defaultAggregationConfig 1000000 []
      [exSignal "w" 70 ["a"] RiskLevel.low 10000 5000]).1 =
      [exSignal "w" 70 ["a"] RiskLevel.low 10000 5000] ∧
    ((1000000 : ℚ) - 24 * 60 * 60 * 1000 ≤ 999 ∧ (999 : ℚ) ≤ 1000000) := by
  refine ⟨c5_suppression_invariants.1 defaultAggregationConfig 1000000 []
      (exSignal "x" 70 ["a"] RiskLevel.low 10000 5000)
      (exSignal "x" 75 ["b"] RiskLevel.low 10000 5000)
      (by norm_num [defaultAggregationConfig]) (by norm_num) rfl,
    c5_suppression_invariants.2.1 defaultAggregationConfig 1000000 []
      (exSignal "w" 70 ["a"] RiskLevel.low 10000 5000)
      (Or.inl rfl)
      (by norm_num [exSignal, defaultAggregationConfig])
      (by norm_num +decide [exSignal])
      (by norm_num [exSignal, exToken]),
    c5_suppression_invariants.2.2 defaultAggregationConfig 1000000 [("k", 999)] []
      (by norm_num) ("k", 999) ?_⟩
  norm_num [filterSignals, cleanupProcessedTokens]

/-- JS `Math.max` is commutative. -/
theorem qmax_comm (a b : ℚ) : qmax a b = qmax b a := by
  unfold qmax
  split_ifs with h1 h2 h2
  · exact le_antisymm h2 h1
  · rfl
  · rfl
  · rcases le_total a b with h | h
    · exact absurd h h2
    · exact absurd h h1

/-- Membership in `dedupFirstAux`. -/
theorem mem_dedupFirstAux {α : Type} [DecidableEq α] (x : α) :
    ∀ (l seen : List α), x ∈ dedupFirstAux seen l ↔ x ∈ l ∧ x ∉ seen := by
  intro l
  induction l with
  | nil => intro seen; simp [dedupFirstAux]
  | cons y ys ih =>
    intro seen
    by_cases hy : y ∈ seen
    · simp only [dedupFirstAux, if_pos hy, ih, List.mem_cons]
      constructor
      · rintro ⟨h1, h2⟩
        exact ⟨Or.inr h1, h2⟩
      · rintro ⟨h1 | h1, h2⟩
        · exact absurd (h1 ▸ hy) h2
        · exact ⟨h1, h2⟩
    · simp only [dedupFirstAux, if_neg hy, List.mem_cons, ih]
      by_cases hxy : x = y
      · subst hxy
        simp [hy]
      · simp only [hxy, false_or]

/-- `dedupFirst` preserves membership. -/
theorem mem_dedupFirst {α : Type} [DecidableEq α] (x : α) (l : List α) :
    x ∈ dedupFirst l ↔ x ∈ l := by
  simp [dedupFirst, mem_dedupFirstAux]

/-- Well-formed grouping state: group keys are distinct and each group's
first member carries the group's key. -/
def groupsWF (gs : SignalGroups) : Prop :=
  (gs.map (fun g => g.1)).Nodup ∧ ∀ g ∈ gs, signalKey g.2.1 = g.1

/-- A key present after `addToGroups` was present before or is the new
signal's key. -/
theorem mem_keys_addToGroups (s : AggregatedSignal) :
    ∀ (gs : SignalGroups) (k : String),
      k ∈ (addToGroups s gs).map (fun g => g.1) →
      k ∈ gs.map (fun g => g.1) ∨ k = signalKey s := by
  intro gs
  induction gs with
  | nil =>
    intro k hk
    simp only [addToGroups, List.map_cons, List.map_nil, List.mem_singleton] at hk
    exact Or.inr hk
  | cons g gs ih =>
    intro k hk
    obtain ⟨k', b, r⟩ := g
    by_cases h : k' = signalKey s
    · simp only [addToGroups, if_pos h, List.map_cons, List.mem_cons] at hk
      simp only [List.map_cons, List.mem_cons]
      tauto
    · simp only [addToGroups, if_neg h, List.map_cons, List.mem_cons] at hk
      simp only [List.map_cons, List.mem_cons]
      rcases hk with hk | hk
      · tauto
      · rcases ih k hk with h2 | h2 <;> tauto

/-- `addToGroups` preserves grouping well-formedness. -/
theorem groupsWF_addToGroups (s : AggregatedSignal) :
    ∀ gs, groupsWF gs → groupsWF (addToGroups s gs) := by
  intro gs
  induction gs with
  | nil =>
    intro _
    refine ⟨by simp [addToGroups], ?_⟩
    intro g hg
    simp only [addToGroups, List.mem_singleton] at hg
    subst hg
    rfl
  | cons g gs ih =>
    intro hWF
    obtain ⟨k', b, r⟩ := g
    obtain ⟨hnd, hbase⟩ := hWF
    simp only [List.map_cons, List.nodup_cons] at hnd
    obtain ⟨hknot, hnd'⟩ := hnd
    have hWFtail : groupsWF gs :=
      ⟨hnd', fun g hg => hbase g (List.mem_cons_of_mem _ hg)⟩
    by_cases h : k' = signalKey s
    · refine ⟨?_, ?_⟩
      · simp only [addToGroups, if_pos h, List.map_cons, List.nodup_cons]
        exact ⟨hknot, hnd'⟩
      · intro g hg
        simp only [addToGroups, if_pos h, List.mem_cons] at hg
        rcases hg with hg | hg
        · subst hg
          exact hbase (k', b, r) (List.mem_cons_self _ _)
        · exact hbase g (List.mem_cons_of_mem _ hg)
    · have ihWF := ih hWFtail
      refine ⟨?_, ?_⟩
      · simp only [addToGroups, if_neg h, List.map_cons, List.nodup_cons]
        refine ⟨?_, ihWF.1⟩
        intro hmem
        rcases mem_keys_addToGroups s gs k' hmem with h2 | h2
        · exact hknot h2
        · exact h h2
      · intro g hg
        simp only [addToGroups, if_neg h, List.mem_cons] at hg
        rcases hg with hg | hg
        · subst hg
          exact hbase (k', b, r) (List.mem_cons_self _ _)
        · exact ihWF.2 g hg

/-- The grouping produced by `groupByKey` is well formed. -/
theorem groupsWF_groupByKey (l : List AggregatedSignal) : groupsWF (groupByKey l) := by
  suffices h : ∀ gs, groupsWF gs →
      groupsWF (l.foldl (fun gs s => addToGroups s gs) gs) by
    exact h [] ⟨List.nodup_nil, by simp⟩
  induction l with
  | nil => intro gs h; exact h
  | cons s l ih =>
    intro gs h
    exact ih _ (groupsWF_addToGroups s gs h)

/-- Emitting a group keeps the token key of the group's first member. -/
theorem signalKey_mergeOne (now : Nat)
    (g : String × AggregatedSignal × List AggregatedSignal) :
    signalKey (mergeOne now g) = signalKey g.2.1 := by
  obtain ⟨k, b, r⟩ := g
  cases r with
  | nil => rfl
  | cons a r => rfl

/-- Adding a signal with a fresh key appends a new singleton group. -/
theorem addToGroups_of_not_mem (s : AggregatedSignal) :
    ∀ gs, signalKey s ∉ gs.map (fun g => g.1) →
      addToGroups s gs = gs ++ [(signalKey s, s, [])] := by
  intro gs
  induction gs with
  | nil => intro _; rfl
  | cons g gs ih =>
    intro h
    obtain ⟨k, b, r⟩ := g
    simp only [List.map_cons, List.mem_cons] at h
    push_neg at h
    have hne : ¬ (k = signalKey s) := fun he => h.1 he.symm
    simp only [addToGroups, if_neg hne, List.cons_append]
    rw [ih h.2]

/-- Grouping a list with pairwise distinct token keys appends one singleton
group per signal. -/
theorem groupByKey_of_nodup_keys :
    ∀ (l : List AggregatedSignal) (gs : SignalGroups),
      (l.map signalKey).Nodup →
      (∀ s ∈ l, signalKey s ∉ gs.map (fun g => g.1)) →
      l.foldl (fun gs s => addToGroups s gs) gs =
        gs ++ l.map (fun s => (signalKey s, s, [])) := by
  intro l
  induction l with
  | nil => intro gs _ _; simp
  | cons s l ih =>
    intro gs hnd hmem
    simp only [List.foldl_cons]
    rw [addToGroups_of_not_mem s gs (hmem s (List.mem_cons_self _ _))]
    simp only [List.map_cons, List.nodup_cons] at hnd
    rw [ih (gs ++ [(signalKey s, s, [])]) hnd.2 ?_]
    · simp
    · intro t ht
      simp only [List.map_append, List.mem_append, List.map_cons, List.map_nil,
        List.mem_singleton, not_or]
      refine ⟨hmem t (List.mem_cons_of_mem _ ht), ?_⟩
      intro he
      exact hnd.1 (he ▸ List.mem_map_of_mem signalKey ht)

/-- Re-running `mergeSignals` on its own output is the identity: every key
occurs once, so every group is a singleton and passes through unchanged. -/
theorem mergeSignals_idem (now now' : Nat) (xs : List AggregatedSignal) :
    mergeSignals now' (mergeSignals now xs) = mergeSignals now xs := by
  have hWF := groupsWF_groupByKey xs
  have hkeys : (mergeSignals now xs).map signalKey =
      (groupByKey xs).map (fun g => g.1) := by
    rw [mergeSignals, List.map_map]
    exact List.map_congr_left fun g hg => by
      rw [Function.comp_apply, signalKey_mergeOne]
      exact hWF.2 g hg
  have hnd : ((mergeSignals now xs).map signalKey).Nodup := by
    rw [hkeys]; exact hWF.1
  conv_lhs => rw [mergeSignals, groupByKey]
  rw [groupByKey_of_nodup_keys (mergeSignals now xs) [] hnd (by simp)]
  simp only [List.nil_append, List.map_map]
  have hid : (mergeOne now' ∘ fun s => ((signalKey s, s, []) :
      String × AggregatedSignal × List AggregatedSignal)) = id :=
    funext fun s => rfl
  rw [hid, List.map_id]

/-- The merged result of the two-platform example pair. -/
def mergedM : AggregatedSignal := mergeGroup 5 (signalKey sPlatA) sPlatA [sPlatB]

/-- C3 counterexample: merging an already-merged result (platformCount 2,
confirming platforms {dexscreener, birdeye}) with itself again CHANGES
`metrics.platformCount`: the merge concatenates the two copies' deduplicated
platform lists, giving platformCount 4. -/
theorem c3_self_merge_counterexample :
    mergeSignals 5 [sPlatA, sPlatB] = [mergedM] ∧
    mergedM.metrics.platformCount = 2 ∧
    (mergeSignals 7 [mergedM, mergedM]).map (fun s => s.metrics.platformCount) = [4] ∧
    (2 : Nat) ≠ 4 := by
  exact ⟨rfl, rfl, rfl, by decide⟩

/-- C3 (amended): merging two same-token signals is commutative in the merged
`metrics.*Score` fields (per-dimension maximum) and in the `riskFactors`
(deduplicated union, as a set); and `mergeSignals` is idempotent as a pass —
re-running it on its own output changes nothing (in particular no
platformCount changes) — but merging a merged result with a second copy of
itself is NOT a no-op (see the counterexample: platformCount doubles). -/
theorem c3_merge_commutative :
    (∀ (now : Nat) (k : String) (A B : AggregatedSignal),
      (mergeGroup now k A [B]).metrics.volumeScore =
        (mergeGroup now k B [A]).metrics.volumeScore ∧
      (mergeGroup now k A [B]).metrics.priceScore =
        (mergeGroup now k B [A]).metrics.priceScore ∧
      (mergeGroup now k A [B]).metrics.socialScore =
        (mergeGroup now k B [A]).metrics.socialScore ∧
      (mergeGroup now k A [B]).metrics.whaleScore =
        (mergeGroup now k B [A]).metrics.whaleScore ∧
      (∀ x, x ∈ (mergeGroup now k A [B]).riskFactors ↔
        x ∈ (mergeGroup now k B [A]).riskFactors)) ∧
    (∀ (now : Nat) (A B : AggregatedSignal), signalKey A = signalKey B →
      mergeSignals now [A, B] = [mergeGroup now (signalKey A) A [B]] ∧
      mergeSignals now [B, A] = [mergeGroup now (signalKey A) B [A]]) ∧
    (∀ (now now' : Nat) (xs : List AggregatedSignal),
      mergeSignals now' (mergeSignals now xs) = mergeSignals now xs) := by
  refine ⟨?_, ?_, fun now now' xs => mergeSignals_idem now now' xs⟩
  · intro now k A B
    refine ⟨?_, ?_, ?_, ?_, ?_⟩ <;>
      simp [mergeGroup, maxQ, qmax_comm, mem_dedupFirst]
    intro x
    tauto
  · intro now A B h
    constructor
    · have e1 : groupByKey [A, B] = [(signalKey A, A, [B])] := by
        simp [groupByKey, addToGroups, h]
      simp [mergeSignals, e1, mergeOne]
    · have e2 : groupByKey [B, A] = [(signalKey A, B, [A])] := by
        simp [groupByKey, addToGroups, h]
      simp [mergeSignals, e2, mergeOne]

/-- Witness for C3 (amended) at the concrete two-platform pair. -/
theorem c3_merge_commutative_witness :
    mergeSignals 5 [sPlatA, sPlatB] = [mergeGroup 5 (signalKey sPlatA) sPlatA [sPlatB]] ∧
    mergeSignals 5 [sPlatB, sPlatA] = [mergeGroup 5 (signalKey sPlatA) sPlatB [sPlatA]] :=
  c3_merge_commutative.2.1 5 sPlatA sPlatB rfl
